import Mathlib

/-!
Shallow embedding of the order-management backend
(`app/models/models.py`, `app/routers/telegram.py`, `app/telegram/handlers.py`,
`app/telegram/notifications.py`, `app/auth/jwt.py`, `app/routers/auth.py`,
`app/routers/pedidos_extended.py`).

Timestamps are abstract natural numbers (the code uses `datetime.utcnow()`;
only ordering and identity of timestamps matter to the claims).  Each
endpoint that writes to the database is modelled as a function returning the
list of database states committed by `db.commit()` calls, in order, next to
its functional result; an empty list means nothing was persisted.
-/

namespace Backend

/-- `PrioridadEnum` from `app/models/models.py`. -/
inductive PrioridadEnum
  | alta
  | media
  | baja
deriving DecidableEq, Repr

/-- `EstadoPedidoEnum` from `app/models/models.py`: the six lifecycle states. -/
inductive EstadoPedidoEnum
  | pendiente_confirmacion
  | confirmado
  | en_preparacion
  | listo_para_recoger
  | completado
  | cancelado
deriving DecidableEq, Repr

/-- `EstadoPedidoEnum(value)` on a raw string: `some` on the six recognized
values, `none` (the `ValueError` branch) otherwise. -/
def EstadoPedidoEnum.ofString (s : String) : Option EstadoPedidoEnum :=
  if s = "pendiente_confirmacion" then some .pendiente_confirmacion
  else if s = "confirmado" then some .confirmado
  else if s = "en_preparacion" then some .en_preparacion
  else if s = "listo_para_recoger" then some .listo_para_recoger
  else if s = "completado" then some .completado
  else if s = "cancelado" then some .cancelado
  else none

/-- `TipoNotificacionEnum` from `app/models/models.py`. -/
inductive TipoNotificacionEnum
  | cambio_estado
  | recordatorio
  | resumen
deriving DecidableEq, Repr

/-- The `Pedido` ORM model (`app/models/models.py`): lifecycle state plus one
nullable timestamp per visited state. -/
structure Pedido where
  id : Nat
  telegram_user_id : Int
  telegram_username : Option String
  mensaje_id : Int
  prioridad : PrioridadEnum
  estado : EstadoPedidoEnum
  fecha_solicitada : Option Nat
  hora_solicitada : Option String
  resumen_items : String
  notas_adicionales : Option String
  asignado_a : Option String
  fecha_creacion : Nat
  fecha_confirmacion : Option Nat
  fecha_preparacion : Option Nat
  fecha_listo : Option Nat
  fecha_completado : Option Nat
  fecha_cancelado : Option Nat
deriving DecidableEq, Repr

/-- The `HistorialEstado` ORM model: append-only audit record of one
transition. -/
structure HistorialEstado where
  pedido_id : Nat
  estado_anterior : Option EstadoPedidoEnum
  estado_nuevo : EstadoPedidoEnum
  modificado_por : Option String
  notas : Option String
  fecha_cambio : Nat
deriving DecidableEq, Repr

/-- The `NotificacionEnviada` ORM model: one row per delivery attempt. -/
structure NotificacionEnviada where
  pedido_id : Option Nat
  telegram_user_id : Int
  tipo_notificacion : TipoNotificacionEnum
  mensaje : String
  exitoso : Bool
  error : Option String
  fecha_envio : Nat
deriving DecidableEq, Repr

/-- The `LogMensaje` ORM model: one row per incoming Telegram message. -/
structure LogMensaje where
  telegram_user_id : Int
  telegram_username : Option String
  mensaje_id : Int
  tipo_mensaje : String
  contenido : Option String
  transcripcion : Option String
  es_pedido : Bool
  fecha_recepcion : Nat
deriving DecidableEq, Repr

/-- The `RefreshToken` ORM model. -/
structure RefreshToken where
  user_id : Nat
  token : String
  expires_at : Nat
  is_revoked : Bool
  created_at : Nat
deriving DecidableEq, Repr

/-- The part of the `User` ORM model the auth endpoints read. -/
structure AuthUser where
  id : Nat
  email : String
  is_active : Bool
deriving DecidableEq, Repr

/-- The relational store, restricted to the tables the claims touch.
`next_pedido_id` models the autoincrement primary key of `pedidos`. -/
structure DB where
  pedidos : List Pedido
  historial : List HistorialEstado
  notificaciones : List NotificacionEnviada
  logs : List LogMensaje
  refresh_tokens : List RefreshToken
  users : List AuthUser
  next_pedido_id : Nat
deriving DecidableEq, Repr

/-- The ORM mutates the row fetched by `.first()`; replacing the first row
with the matching primary key models that in-place update. -/
def replacePedidoFirst : List Pedido → Nat → Pedido → List Pedido
  | [], _, _ => []
  | q :: qs, pid, p => if q.id = pid then p :: qs else q :: replacePedidoFirst qs pid p

/-- The `if nuevo_estado == ... : pedido.fecha_... = datetime.utcnow()` chain
shared by `cambiar_estado_pedido` (`app/routers/telegram.py` lines 186-195)
and `_cambiar_estado_pedido` (`app/telegram/handlers.py` lines 519-528). -/
def aplicarTimestamp (p : Pedido) (nuevo_estado : EstadoPedidoEnum) (now : Nat) : Pedido :=
  match nuevo_estado with
  | .confirmado => { p with fecha_confirmacion := some now }
  | .en_preparacion => { p with fecha_preparacion := some now }
  | .listo_para_recoger => { p with fecha_listo := some now }
  | .completado => { p with fecha_completado := some now }
  | .cancelado => { p with fecha_cancelado := some now }
  | .pendiente_confirmacion => p

/-- HTTP-level failures of the modelled endpoints. -/
inductive ApiError
  | notFound
  | invalidState
  | unauthorized
  | forbidden
deriving DecidableEq, Repr

/-- `POST /api/telegram/pedidos/:id/cambiar-estado`
(`cambiar_estado_pedido`, `app/routers/telegram.py` lines 149-231, up to the
single `db.commit()` at line 206; the background notification task is
modelled separately).  Returns the committed database states and the
endpoint result. -/
def cambiar_estado_pedido (db : DB) (pedido_id : Nat) (nuevo_estado_str : String)
    (notas : Option String) (actor_email : String) (now : Nat) :
    List DB × Except ApiError Pedido :=
  match db.pedidos.find? (fun p => p.id == pedido_id) with
  | none => ([], .error .notFound)
  | some pedido =>
    match EstadoPedidoEnum.ofString nuevo_estado_str with
    | none => ([], .error .invalidState)
    | some nuevo_estado =>
      let estado_anterior := pedido.estado
      let pedido1 := aplicarTimestamp { pedido with estado := nuevo_estado } nuevo_estado now
      let entry : HistorialEstado :=
        { pedido_id := pedido_id
          estado_anterior := some estado_anterior
          estado_nuevo := nuevo_estado
          modificado_por := some actor_email
          notas := notas
          fecha_cambio := now }
      let db1 : DB :=
        { db with
          pedidos := replacePedidoFirst db.pedidos pedido_id pedido1
          historial := db.historial ++ [entry] }
      ([db1], .ok pedido1)

/-- `TelegramHandlers._cambiar_estado_pedido`
(`app/telegram/handlers.py` lines 505-538): the bot-side state change.
Missing order: returns silently with no write; otherwise same mutation as
the REST endpoint, with actor `"telegram_bot"` and no note, one commit. -/
def _cambiar_estado_pedido (db : DB) (pedido_id : Nat)
    (nuevo_estado : EstadoPedidoEnum) (now : Nat) : DB :=
  match db.pedidos.find? (fun p => p.id == pedido_id) with
  | none => db
  | some pedido =>
    let estado_anterior := pedido.estado
    let pedido1 := aplicarTimestamp { pedido with estado := nuevo_estado } nuevo_estado now
    let entry : HistorialEstado :=
      { pedido_id := pedido_id
        estado_anterior := some estado_anterior
        estado_nuevo := nuevo_estado
        modificado_por := some "telegram_bot"
        notas := none
        fecha_cambio := now }
    { db with
      pedidos := replacePedidoFirst db.pedidos pedido_id pedido1
      historial := db.historial ++ [entry] }

/-- The dictionary value returned by
`NotificationService.notificar_cambio_estado`
(`app/telegram/notifications.py` lines 146-151). -/
structure NotifData where
  telegram_user_id : Int
  mensaje : String
  tipo_notificacion : TipoNotificacionEnum
  pedido_id : Nat
deriving DecidableEq, Repr

/-- The `mensajes_estado` message templates of
`NotificationService.notificar_cambio_estado`
(`app/telegram/notifications.py` lines 106-137), one fixed text per
notifying state, embedding the order id and the item summary. -/
def mensajeEstado (pedido : Pedido) (nuevo_estado : EstadoPedidoEnum) : Option String :=
  match nuevo_estado with
  | .confirmado => some
      ("✅ **TU PEDIDO #" ++ toString pedido.id ++ " HA SIDO CONFIRMADO**\n\n" ++
       "📦 " ++ pedido.resumen_items ++ "\n\n" ++
       "Tu pedido ha sido confirmado y está en espera de preparación.\n" ++
       "Te notificaremos cuando esté listo.")
  | .en_preparacion => some
      ("🔄 **TU PEDIDO #" ++ toString pedido.id ++ " ESTÁ EN PREPARACIÓN**\n\n" ++
       "📦 " ++ pedido.resumen_items ++ "\n\n" ++
       "Estamos preparando tu pedido.\n" ++
       "Te avisaremos cuando esté listo para recoger.")
  | .listo_para_recoger => some
      ("✅ **¡TU PEDIDO #" ++ toString pedido.id ++ " ESTÁ LISTO!**\n\n" ++
       "📦 " ++ pedido.resumen_items ++ "\n\n" ++
       "Tu pedido está listo para recoger.\n" ++
       "¡Te esperamos!")
  | .completado => some
      ("🎉 **¡GRACIAS POR TU PEDIDO #" ++ toString pedido.id ++ "!**\n\n" ++
       "📦 " ++ pedido.resumen_items ++ "\n\n" ++
       "Tu pedido ha sido completado.\n" ++
       "¡Esperamos verte pronto!")
  | .cancelado => some
      ("❌ **TU PEDIDO #" ++ toString pedido.id ++ " HA SIDO CANCELADO**\n\n" ++
       "📦 " ++ pedido.resumen_items ++ "\n\n" ++
       "Tu pedido ha sido cancelado.\n" ++
       "Si tienes alguna pregunta, contáctanos.")
  | .pendiente_confirmacion => none

/-- `NotificationService.notificar_cambio_estado`
(`app/telegram/notifications.py` lines 90-151): pure mapping from a
transition to an optional notification intent; `none` for
`pendiente_confirmacion`. -/
def notificar_cambio_estado (pedido : Pedido) (nuevo_estado : EstadoPedidoEnum) :
    Option NotifData :=
  match mensajeEstado pedido nuevo_estado with
  | none => none
  | some mensaje =>
    some { telegram_user_id := pedido.telegram_user_id
           mensaje := mensaje
           tipo_notificacion := TipoNotificacionEnum.cambio_estado
           pedido_id := pedido.id }

/-- Outcome of one `bot.send_message` call
(`app/telegram/notifications.py` lines 49-52): success, a `TelegramError`,
or any other unexpected exception. -/
inductive SendResult
  | ok
  | telegramError (msg : String)
  | unexpectedError (msg : String)
deriving DecidableEq, Repr

/-- `NotificationService.enviar_notificacion`
(`app/telegram/notifications.py` lines 26-88).  The external channel is an
oracle stream of `SendResult`s; each call pops exactly one outcome.
Success commits a `NotificacionEnviada` row with `exitoso := true`; a
`TelegramError` commits a row with `exitoso := false` and the error text and
returns `false`; any other exception returns `false` with no commit.
`none` only when the oracle stream is exhausted. -/
def enviar_notificacion (db : DB) (telegram_user_id : Int) (mensaje : String)
    (tipo_notificacion : TipoNotificacionEnum) (pedido_id : Option Nat) (now : Nat) :
    List SendResult → Option (List DB × Bool × List SendResult)
  | [] => none
  | outcome :: rest =>
    match outcome with
    | .ok =>
      let registro : NotificacionEnviada :=
        { pedido_id := pedido_id
          telegram_user_id := telegram_user_id
          tipo_notificacion := tipo_notificacion
          mensaje := mensaje
          exitoso := true
          error := none
          fecha_envio := now }
      some ([{ db with notificaciones := db.notificaciones ++ [registro] }], true, rest)
    | .telegramError e =>
      let registro : NotificacionEnviada :=
        { pedido_id := pedido_id
          telegram_user_id := telegram_user_id
          tipo_notificacion := tipo_notificacion
          mensaje := mensaje
          exitoso := false
          error := some e
          fecha_envio := now }
      some ([{ db with notificaciones := db.notificaciones ++ [registro] }], false, rest)
    | .unexpectedError _ => some ([], false, rest)

/-- `NotificationService.enviar_notificacion_cambio_estado`
(`app/telegram/notifications.py` lines 153-183): build the intent, return
`false` without sending when there is none, else deliver it. -/
def enviar_notificacion_cambio_estado (db : DB) (pedido : Pedido)
    (nuevo_estado : EstadoPedidoEnum) (now : Nat) (outcomes : List SendResult) :
    Option (List DB × Bool × List SendResult) :=
  match notificar_cambio_estado pedido nuevo_estado with
  | none => some ([], false, outcomes)
  | some d =>
    enviar_notificacion db d.telegram_user_id d.mensaje d.tipo_notificacion
      (some d.pedido_id) now outcomes

/-- `REFRESH_TOKEN_EXPIRE_DAYS = 7` (`app/auth/jwt.py`), as an abstract
duration added to `now`. -/
def refreshTokenExpireDelta : Nat := 7

/-- `verify_refresh_token` (`app/auth/jwt.py` lines 94-111): look up the
token among non-revoked rows, reject it when expired, and return the owning
user. -/
def verify_refresh_token (db : DB) (token : String) (now : Nat) : Option AuthUser :=
  match db.refresh_tokens.find? (fun rt => rt.token == token && !rt.is_revoked) with
  | none => none
  | some rt =>
    if rt.expires_at < now then none
    else db.users.find? (fun u => u.id == rt.user_id)

/-- Flip `is_revoked` on the first row with the given token value
(the ORM mutates the row fetched by `.first()`). -/
def revokeTokenFirst : List RefreshToken → String → List RefreshToken
  | [], _ => []
  | rt :: rts, token =>
    if rt.token = token then { rt with is_revoked := true } :: rts
    else rt :: revokeTokenFirst rts token

/-- `revoke_refresh_token` (`app/auth/jwt.py` lines 114-123): set
`is_revoked = true` and commit; `false` with no write when the token row
does not exist.  Returns the committed states and the boolean result. -/
def revoke_refresh_token (db : DB) (token : String) : List DB × Bool :=
  match db.refresh_tokens.find? (fun rt => rt.token == token) with
  | none => ([], false)
  | some _ =>
    ([{ db with refresh_tokens := revokeTokenFirst db.refresh_tokens token }], true)

/-- The `RefreshToken(...)` row built by `create_refresh_token`
(`app/auth/jwt.py` lines 82-86): fresh, active, expiring
`REFRESH_TOKEN_EXPIRE_DAYS` from now. -/
def nuevoRefreshToken (user_id : Nat) (token : String) (now : Nat) : RefreshToken :=
  { user_id := user_id
    token := token
    expires_at := now + refreshTokenExpireDelta
    is_revoked := false
    created_at := now }

/-- `create_refresh_token` (`app/auth/jwt.py` lines 73-91): insert a fresh
active token row and commit.  The random `secrets.token_urlsafe(32)` value
is an explicit argument. -/
def create_refresh_token (user_id : Nat) (db : DB) (newToken : String) (now : Nat) :
    List DB × String :=
  ([{ db with refresh_tokens := db.refresh_tokens ++ [nuevoRefreshToken user_id newToken now] }],
   newToken)

/-- `POST /api/auth/refresh` (`refresh_access_token`,
`app/routers/auth.py` lines 135-171): verify the presented refresh token,
then revoke it (one commit inside `revoke_refresh_token`) and create a new
one (a second commit inside `create_refresh_token`).  The access-token JWT
is out of scope; the result is the new refresh token.  The returned list is
the sequence of committed database states. -/
def refresh_access_token (db : DB) (refresh_token : String) (newToken : String)
    (now : Nat) : List DB × Except ApiError String :=
  match verify_refresh_token db refresh_token now with
  | none => ([], .error .unauthorized)
  | some user =>
    if !user.is_active then ([], .error .forbidden)
    else
      let (commits1, _) := revoke_refresh_token db refresh_token
      let db1 := commits1.getLastD db
      let (commits2, tok) := create_refresh_token user.id db1 newToken now
      (commits1 ++ commits2, .ok tok)

/-- One proposed order inside the classifier's JSON
(`app/telegram/gemini_service.py` response schema): priority, optional
requested date (already parsed from `YYYY-MM-DD`), optional time string,
item summary. -/
structure PedidoData where
  prioridad : PrioridadEnum
  fecha_solicitada : Option Nat
  hora_solicitada : Option String
  resumen_items : String
deriving DecidableEq, Repr

/-- The classifier's parsed response: `{es_pedido, pedidos}`. -/
structure Analisis where
  es_pedido : Bool
  pedidos : List PedidoData
deriving DecidableEq, Repr

/-- The `Pedido(...)` constructor call inside the per-proposal loop of
`TelegramHandlers.procesar_mensaje` (`app/telegram/handlers.py`
lines 231-239): defaults `estado = PENDIENTE_CONFIRMACION`, all transition
timestamps null, `fecha_creacion = now`, `mensaje_id` of the originating
message. -/
def nuevoPedido (id : Nat) (telegram_user_id : Int) (telegram_username : Option String)
    (mensaje_id : Int) (d : PedidoData) (now : Nat) : Pedido :=
  { id := id
    telegram_user_id := telegram_user_id
    telegram_username := telegram_username
    mensaje_id := mensaje_id
    prioridad := d.prioridad
    estado := .pendiente_confirmacion
    fecha_solicitada := d.fecha_solicitada
    hora_solicitada := d.hora_solicitada
    resumen_items := d.resumen_items
    notas_adicionales := none
    asignado_a := none
    fecha_creacion := now
    fecha_confirmacion := none
    fecha_preparacion := none
    fecha_listo := none
    fecha_completado := none
    fecha_cancelado := none }

/-- The rows inserted by the `for pedido_data in pedidos_list` loop, with
consecutive autoincrement ids starting at `startId`. -/
def buildPedidos (startId : Nat) (telegram_user_id : Int)
    (telegram_username : Option String) (mensaje_id : Int) (now : Nat) :
    List PedidoData → List Pedido
  | [] => []
  | d :: ds =>
    nuevoPedido startId telegram_user_id telegram_username mensaje_id d now ::
      buildPedidos (startId + 1) telegram_user_id telegram_username mensaje_id now ds

/-- `TelegramHandlers.procesar_mensaje` (`app/telegram/handlers.py`
lines 168-259), database effect only: log the incoming message; on a
classifier failure (`analisis = none`) stop; when the message is an order,
mark the log row and insert one `Pedido` row per proposed order, all sharing
the originating `mensaje_id`.  Replies to the chat are out of scope. -/
def procesar_mensaje (db : DB) (telegram_user_id : Int)
    (telegram_username : Option String) (mensaje_id : Int) (texto : String)
    (analisis : Option Analisis) (now : Nat) : DB :=
  let log : LogMensaje :=
    { telegram_user_id := telegram_user_id
      telegram_username := telegram_username
      mensaje_id := mensaje_id
      tipo_mensaje := "text"
      contenido := some texto
      transcripcion := none
      es_pedido := false
      fecha_recepcion := now }
  let db1 : DB := { db with logs := db.logs ++ [log] }
  match analisis with
  | none => db1
  | some a =>
    if a.es_pedido then
      let db2 : DB := { db with logs := db.logs ++ [{ log with es_pedido := true }] }
      if a.pedidos = [] then db2
      else
        let nuevos := buildPedidos db.next_pedido_id telegram_user_id
          telegram_username mensaje_id now a.pedidos
        { db2 with
          pedidos := db2.pedidos ++ nuevos
          next_pedido_id := db.next_pedido_id + a.pedidos.length }
    else db1

/-- A rendered CSV cell for an optional timestamp (`csv.writer` writes
`None` as the empty string). -/
def celdaOptNat : Option Nat → String
  | none => ""
  | some n => toString n

/-- A rendered CSV cell for an optional string. -/
def celdaOptStr : Option String → String
  | none => ""
  | some s => s

/-- The string value of a `PrioridadEnum` member. -/
def PrioridadEnum.valor : PrioridadEnum → String
  | .alta => "alta"
  | .media => "media"
  | .baja => "baja"

/-- The string value of an `EstadoPedidoEnum` member. -/
def EstadoPedidoEnum.valor : EstadoPedidoEnum → String
  | .pendiente_confirmacion => "pendiente_confirmacion"
  | .confirmado => "confirmado"
  | .en_preparacion => "en_preparacion"
  | .listo_para_recoger => "listo_para_recoger"
  | .completado => "completado"
  | .cancelado => "cancelado"

/-- The header row written by `exportar_pedidos_csv`
(`app/routers/pedidos_extended.py` lines 511-516). -/
def csvHeader : List String :=
  ["ID", "Telegram User ID", "Username", "Prioridad", "Estado",
   "Fecha Solicitada", "Hora Solicitada", "Resumen Items",
   "Notas", "Asignado A", "Fecha Creación", "Fecha Confirmación",
   "Fecha Preparación", "Fecha Listo", "Fecha Completado"]

/-- The per-order row written by `exportar_pedidos_csv`
(`app/routers/pedidos_extended.py` lines 519-536). -/
def csvRow (p : Pedido) : List String :=
  [toString p.id,
   toString p.telegram_user_id,
   celdaOptStr p.telegram_username,
   p.prioridad.valor,
   p.estado.valor,
   celdaOptNat p.fecha_solicitada,
   celdaOptStr p.hora_solicitada,
   p.resumen_items,
   celdaOptStr p.notas_adicionales,
   celdaOptStr p.asignado_a,
   toString p.fecha_creacion,
   celdaOptNat p.fecha_confirmacion,
   celdaOptNat p.fecha_preparacion,
   celdaOptNat p.fecha_listo,
   celdaOptNat p.fecha_completado]

/-! ### Predicates used to state the claims -/

/-- `t` occurs as a substring of `s`. -/
def containsStr (s t : String) : Prop := ∃ a b, s = a ++ t ++ b

/-- The timestamp effect the spec ascribes to a transition: exactly the
single timestamp field corresponding to `nuevo_estado` is set to `now`
(none for `pendiente_confirmacion`), every other lifecycle timestamp field
keeps its previous value, and the creation time is untouched. -/
def timestampEffect (p p1 : Pedido) (nuevo_estado : EstadoPedidoEnum) (now : Nat) : Prop :=
  p1.fecha_creacion = p.fecha_creacion ∧
  p1.fecha_confirmacion =
    (if nuevo_estado = .confirmado then some now else p.fecha_confirmacion) ∧
  p1.fecha_preparacion =
    (if nuevo_estado = .en_preparacion then some now else p.fecha_preparacion) ∧
  p1.fecha_listo =
    (if nuevo_estado = .listo_para_recoger then some now else p.fecha_listo) ∧
  p1.fecha_completado =
    (if nuevo_estado = .completado then some now else p.fecha_completado) ∧
  p1.fecha_cancelado =
    (if nuevo_estado = .cancelado then some now else p.fecha_cancelado)

/-- The refresh tokens of `db` that `verify_refresh_token` would still accept
for user `uid` at time `now`: not revoked and not expired. -/
def countValid (db : DB) (uid : Nat) (now : Nat) : Nat :=
  (db.refresh_tokens.filter
    (fun rt => rt.user_id == uid && !rt.is_revoked && !decide (rt.expires_at < now))).length

/-! ### Concrete sample data for witnesses and counterexamples -/

/-- A sample order in the initial state. -/
def pedidoEj : Pedido :=
  { id := 1
    telegram_user_id := 7
    telegram_username := some "ana"
    mensaje_id := 10
    prioridad := .media
    estado := .pendiente_confirmacion
    fecha_solicitada := none
    hora_solicitada := none
    resumen_items := "2 pizzas"
    notas_adicionales := none
    asignado_a := none
    fecha_creacion := 0
    fecha_confirmacion := none
    fecha_preparacion := none
    fecha_listo := none
    fecha_completado := none
    fecha_cancelado := none }

/-- A database holding just `pedidoEj`. -/
def dbEj : DB :=
  { pedidos := [pedidoEj], historial := [], notificaciones := [], logs := [],
    refresh_tokens := [], users := [], next_pedido_id := 2 }

/-- `pedidoEj` after the REST transition to `confirmado` at time 3. -/
def pedidoConf : Pedido :=
  { pedidoEj with estado := .confirmado, fecha_confirmacion := some 3 }

/-- The history row written by that transition. -/
def entryConf : HistorialEstado :=
  { pedido_id := 1
    estado_anterior := some .pendiente_confirmacion
    estado_nuevo := .confirmado
    modificado_por := some "ana@mail.com"
    notas := none
    fecha_cambio := 3 }

/-- The committed database state after that transition. -/
def dbConf : DB := { dbEj with pedidos := [pedidoConf], historial := [entryConf] }

/-- The notification row recorded when delivering the `confirmado`
notification for `pedidoConf` fails with a `TelegramError`. -/
def registroFallo : NotificacionEnviada :=
  { pedido_id := some 1
    telegram_user_id := 7
    tipo_notificacion := .cambio_estado
    mensaje := (mensajeEstado pedidoConf .confirmado).getD ""
    exitoso := false
    error := some "blocked"
    fecha_envio := 4 }

/-- `dbConf` after that failed delivery was recorded. -/
def dbConfNotif : DB := { dbConf with notificaciones := [registroFallo] }

/-- A sample order already cancelled at time 5. -/
def pedidoCancelado : Pedido :=
  { pedidoEj with estado := .cancelado, fecha_cancelado := some 5 }

/-- A database holding just `pedidoCancelado`. -/
def dbCancelado : DB :=
  { pedidos := [pedidoCancelado], historial := [], notificaciones := [], logs := [],
    refresh_tokens := [], users := [], next_pedido_id := 2 }

/-- `pedidoCancelado` after a second transition to `cancelado` at time 9:
its cancellation timestamp has been overwritten. -/
def pedidoCancelado9 : Pedido := { pedidoCancelado with fecha_cancelado := some 9 }

/-- A sample active user for the auth endpoints. -/
def userEj : AuthUser := { id := 1, email := "ana@mail.com", is_active := true }

/-- An active, unexpired refresh token owned by `userEj`. -/
def tokenViejo : RefreshToken :=
  { user_id := 1, token := "tokold", expires_at := 100, is_revoked := false, created_at := 0 }

/-- A database with one user holding one valid refresh token. -/
def dbTok : DB :=
  { pedidos := [], historial := [], notificaciones := [], logs := [],
    refresh_tokens := [tokenViejo], users := [userEj], next_pedido_id := 1 }

/-- `dbTok` after the first commit of `/refresh` (old token revoked,
new one not yet created). -/
def dbTokRevocado : DB :=
  { dbTok with refresh_tokens := [{ tokenViejo with is_revoked := true }] }

/-- `dbTok` after the second commit of `/refresh` (rotation finished). -/
def dbTokRotado : DB :=
  { dbTok with refresh_tokens :=
      [{ tokenViejo with is_revoked := true },
       { user_id := 1, token := "toknew", expires_at := 10 + refreshTokenExpireDelta,
         is_revoked := false, created_at := 10 }] }

/-- A classifier result proposing two orders from one message. -/
def analisisDoble : Analisis :=
  { es_pedido := true
    pedidos :=
      [{ prioridad := .alta, fecha_solicitada := some 20, hora_solicitada := some "12:00",
         resumen_items := "1 pizza" },
       { prioridad := .media, fecha_solicitada := some 21, hora_solicitada := none,
         resumen_items := "2 hamburguesas" }] }

/-- Sample pedido with a recorded cancellation timestamp (CSV export). -/
def pedidoCsvA : Pedido := { pedidoEj with fecha_cancelado := some 5 }

/-- Same pedido without the cancellation timestamp. -/
def pedidoCsvB : Pedido := { pedidoEj with fecha_cancelado := none }

/-! ### Helper lemmas -/

/-- Rows whose primary key differs from the updated one survive the update. -/
theorem mem_replacePedidoFirst_of_ne (l : List Pedido) (pid : Nat) (p q : Pedido)
    (hq : q ∈ l) (hne : q.id ≠ pid) : q ∈ replacePedidoFirst l pid p := by
  induction l with
  | nil => cases hq
  | cons a l ih =>
    rcases List.mem_cons.mp hq with rfl | hq'
    · rw [replacePedidoFirst, if_neg hne]
      exact List.mem_cons_self _ _
    · rw [replacePedidoFirst]
      by_cases ha : a.id = pid
      · rw [if_pos ha]; exact List.mem_cons_of_mem _ hq'
      · rw [if_neg ha]; exact List.mem_cons_of_mem _ (ih hq')

/-- Searching an appended list skips a first part with no match. -/
theorem find?_append_of_none {α : Type} (l m : List α) (p : α → Bool)
    (h : l.find? p = none) : (l ++ m).find? p = m.find? p := by
  induction l with
  | nil => simp
  | cons a l ih =>
    rw [List.find?_cons] at h
    cases hpa : p a with
    | true => rw [hpa] at h; exact absurd h (by simp)
    | false =>
      rw [hpa] at h
      rw [List.cons_append, List.find?_cons, hpa]
      exact ih h

/-! ### The claims -/

/-- C1: for every existing order and recognized `new_state`, the transition
sets `order.state` to `new_state`, sets exactly the one timestamp field
matching `new_state` (none for `pendiente_confirmacion`) leaving the others
unchanged, appends exactly one history row recording previous state, new
state, actor and optional note, touches no other table, and commits both the
order mutation and the history row in a single unit of work (one committed
state).  The bot-side helper performs the same mutation with actor
`"telegram_bot"` and no note. -/
theorem C1_transition_effect (db : DB) (pid : Nat) (s : String) (notas : Option String)
    (actor : String) (now : Nat) (p : Pedido) (ns : EstadoPedidoEnum)
    (hfind : db.pedidos.find? (fun q => q.id == pid) = some p)
    (hs : EstadoPedidoEnum.ofString s = some ns) :
    ∃ db1 p1,
      cambiar_estado_pedido db pid s notas actor now = ([db1], .ok p1) ∧
      p1.estado = ns ∧
      timestampEffect p p1 ns now ∧
      db1.historial = db.historial ++
        [{ pedido_id := pid, estado_anterior := some p.estado, estado_nuevo := ns,
           modificado_por := some actor, notas := notas, fecha_cambio := now }] ∧
      db1.pedidos = replacePedidoFirst db.pedidos pid p1 ∧
      (∀ q ∈ db.pedidos, q.id ≠ pid → q ∈ db1.pedidos) ∧
      db1.notificaciones = db.notificaciones ∧
      db1.logs = db.logs ∧
      db1.refresh_tokens = db.refresh_tokens ∧
      (_cambiar_estado_pedido db pid ns now).pedidos = db1.pedidos ∧
      (_cambiar_estado_pedido db pid ns now).historial = db.historial ++
        [{ pedido_id := pid, estado_anterior := some p.estado, estado_nuevo := ns,
           modificado_por := some "telegram_bot", notas := none, fecha_cambio := now }] := by
  refine ⟨{ db with
      pedidos := replacePedidoFirst db.pedidos pid
        (aplicarTimestamp { p with estado := ns } ns now),
      historial := db.historial ++
        [{ pedido_id := pid, estado_anterior := some p.estado, estado_nuevo := ns,
           modificado_por := some actor, notas := notas, fecha_cambio := now }] },
    aplicarTimestamp { p with estado := ns } ns now,
    ?_, ?_, ?_, rfl, rfl, ?_, rfl, rfl, rfl, ?_, ?_⟩
  · simp only [cambiar_estado_pedido, hfind, hs]
  · cases ns <;> simp [aplicarTimestamp]
  · cases ns <;> simp [aplicarTimestamp, timestampEffect]
  · intro q hq hne
    exact mem_replacePedidoFirst_of_ne _ _ _ _ hq hne
  · simp only [_cambiar_estado_pedido, hfind]
  · simp only [_cambiar_estado_pedido, hfind]

/-- C1 witness: transitioning `pedidoEj` to `confirmado` at time 3 yields one
committed state whose order carries the `confirmado` timestamp. -/
theorem C1_transition_effect_witness :
    ∃ db1 p1,
      cambiar_estado_pedido dbEj 1 "confirmado" none "ana@mail.com" 3 = ([db1], .ok p1) ∧
      p1.estado = .confirmado ∧
      timestampEffect pedidoEj p1 .confirmado 3 := by
  obtain ⟨db1, p1, h1, h2, h3, -⟩ :=
    C1_transition_effect dbEj 1 "confirmado" none "ana@mail.com" 3 pedidoEj .confirmado
      (by decide) (by decide)
  exact ⟨db1, p1, h1, h2, h3⟩

/-- C2: an unrecognized `new_state` on an existing order fails with
`InvalidState` and commits nothing; a missing order fails with `NotFound`
and commits nothing (the empty commit list is the absence of any write). -/
theorem C2_transition_errors (db : DB) (pid : Nat) (s : String) (notas : Option String)
    (actor : String) (now : Nat) :
    (∀ p, db.pedidos.find? (fun q => q.id == pid) = some p →
      EstadoPedidoEnum.ofString s = none →
      cambiar_estado_pedido db pid s notas actor now = ([], .error .invalidState)) ∧
    (db.pedidos.find? (fun q => q.id == pid) = none →
      cambiar_estado_pedido db pid s notas actor now = ([], .error .notFound)) := by
  constructor
  · intro p hfind hbad
    simp only [cambiar_estado_pedido, hfind, hbad]
  · intro hmiss
    simp only [cambiar_estado_pedido, hmiss]

/-- C2 witness: `"bogus_state"` on the existing order 1 gives `InvalidState`
with no commit; order 99 does not exist and gives `NotFound` with no
commit. -/
theorem C2_transition_errors_witness :
    cambiar_estado_pedido dbEj 1 "bogus_state" none "ana@mail.com" 3 =
      ([], .error .invalidState) ∧
    cambiar_estado_pedido dbEj 99 "confirmado" none "ana@mail.com" 3 =
      ([], .error .notFound) :=
  ⟨(C2_transition_errors dbEj 1 "bogus_state" none "ana@mail.com" 3).1 pedidoEj
      (by decide) (by decide),
   (C2_transition_errors dbEj 99 "confirmado" none "ana@mail.com" 3).2 (by decide)⟩

/-- C3 counterexample: order 1 was cancelled with timestamp 5; a second
transition to `cancelado` at time 9 succeeds and overwrites the previously
recorded cancellation timestamp with 9, so a subsequent transition call does
not always leave `fecha_cancelado` unchanged. -/
theorem C3_counterexample :
    pedidoCancelado.fecha_cancelado = some 5 ∧
    (cambiar_estado_pedido dbCancelado 1 "cancelado" none "ana@mail.com" 9).2 =
      .ok pedidoCancelado9 ∧
    pedidoCancelado9.fecha_cancelado = some 9 := ⟨by decide, rfl, by decide⟩

/-- C3 amended: a transition to `cancelado` succeeds on any existing order
(in particular from any non-terminal state) and stamps `fecha_cancelado`;
any subsequent transition to a recognized state *other than* `cancelado`
changes the state but leaves the previously recorded `fecha_cancelado`
unchanged.  A repeated transition to `cancelado` overwrites it. -/
theorem C3_cancel_timestamp (db : DB) (pid : Nat) (notas : Option String)
    (actor : String) (now : Nat) (p : Pedido)
    (hfind : db.pedidos.find? (fun q => q.id == pid) = some p) :
    (∃ db1 p1, cambiar_estado_pedido db pid "cancelado" notas actor now = ([db1], .ok p1) ∧
      p1.estado = .cancelado ∧ p1.fecha_cancelado = some now) ∧
    (∀ s ns, EstadoPedidoEnum.ofString s = some ns → ns ≠ .cancelado →
      ∃ db1 p1, cambiar_estado_pedido db pid s notas actor now = ([db1], .ok p1) ∧
        p1.estado = ns ∧ p1.fecha_cancelado = p.fecha_cancelado) := by
  constructor
  · refine ⟨{ db with
        pedidos := replacePedidoFirst db.pedidos pid
          { p with estado := .cancelado, fecha_cancelado := some now },
        historial := db.historial ++
          [{ pedido_id := pid, estado_anterior := some p.estado,
             estado_nuevo := .cancelado, modificado_por := some actor,
             notas := notas, fecha_cambio := now }] },
      { p with estado := .cancelado, fecha_cancelado := some now }, ?_, rfl, rfl⟩
    simp only [cambiar_estado_pedido, hfind]
    rfl
  · intro s ns hs hne
    refine ⟨{ db with
        pedidos := replacePedidoFirst db.pedidos pid
          (aplicarTimestamp { p with estado := ns } ns now),
        historial := db.historial ++
          [{ pedido_id := pid, estado_anterior := some p.estado, estado_nuevo := ns,
             modificado_por := some actor, notas := notas, fecha_cambio := now }] },
      aplicarTimestamp { p with estado := ns } ns now, ?_, ?_, ?_⟩
    · simp only [cambiar_estado_pedido, hfind, hs]
    · cases ns <;> simp [aplicarTimestamp]
    · cases ns <;> simp_all [aplicarTimestamp]

/-- C3 witness: cancelling order 1 at time 9 stamps `fecha_cancelado := 9`,
and a later transition of the cancelled order to `completado` keeps the
recorded cancellation timestamp. -/
theorem C3_cancel_timestamp_witness :
    (∃ db1 p1, cambiar_estado_pedido dbEj 1 "cancelado" none "ana@mail.com" 9 =
        ([db1], .ok p1) ∧ p1.estado = .cancelado ∧ p1.fecha_cancelado = some 9) ∧
    (∃ db1 p1, cambiar_estado_pedido dbCancelado 1 "completado" none "ana@mail.com" 9 =
        ([db1], .ok p1) ∧ p1.estado = .completado ∧
        p1.fecha_cancelado = pedidoCancelado.fecha_cancelado) :=
  ⟨(C3_cancel_timestamp dbEj 1 none "ana@mail.com" 9 pedidoEj (by decide)).1,
   (C3_cancel_timestamp dbCancelado 1 none "ana@mail.com" 9 pedidoCancelado (by decide)).2
      "completado" .completado (by decide) (by decide)⟩

/-- C10: the bot-side state-change helper on a pedido id with no matching
order returns silently with the database untouched (no history row, no order
modified), while the REST endpoint fails with `NotFound` for the same id. -/
theorem C10_bot_missing_order (db : DB) (pid : Nat) (ns : EstadoPedidoEnum)
    (now : Nat) (s : String) (notas : Option String) (actor : String)
    (hmiss : db.pedidos.find? (fun q => q.id == pid) = none) :
    _cambiar_estado_pedido db pid ns now = db ∧
    cambiar_estado_pedido db pid s notas actor now = ([], .error .notFound) := by
  constructor
  · simp only [_cambiar_estado_pedido, hmiss]
  · simp only [cambiar_estado_pedido, hmiss]

/-- C10 witness: order 99 does not exist in `dbEj`; the bot helper leaves the
database unchanged and the REST endpoint answers `NotFound`. -/
theorem C10_bot_missing_order_witness :
    _cambiar_estado_pedido dbEj 99 .confirmado 3 = dbEj ∧
    cambiar_estado_pedido dbEj 99 "confirmado" none "ana@mail.com" 3 =
      ([], .error .notFound) :=
  C10_bot_missing_order dbEj 99 .confirmado 3 "confirmado" none "ana@mail.com" (by decide)

/-- C4: building a notification is a pure function; it returns no intent for
`pendiente_confirmacion` and, for each of the five other states, an intent
addressed to the order's Telegram user whose message contains the order id
and the item summary; for `confirmado` the message contains
`TU PEDIDO #<id> HA SIDO CONFIRMADO`. -/
theorem C4_build_notification (p : Pedido) :
    notificar_cambio_estado p .pendiente_confirmacion = none ∧
    (∀ ns, ns ≠ .pendiente_confirmacion →
      ∃ d, notificar_cambio_estado p ns = some d ∧
        d.telegram_user_id = p.telegram_user_id ∧
        d.pedido_id = p.id ∧
        d.tipo_notificacion = .cambio_estado ∧
        containsStr d.mensaje ("#" ++ toString p.id) ∧
        containsStr d.mensaje p.resumen_items) ∧
    (∃ d, notificar_cambio_estado p .confirmado = some d ∧
      containsStr d.mensaje ("TU PEDIDO #" ++ toString p.id ++ " HA SIDO CONFIRMADO")) := by
  refine ⟨rfl, ?_, ?_⟩
  · intro ns hne
    cases ns with
    | pendiente_confirmacion => exact absurd rfl hne
    | confirmado =>
      refine ⟨_, rfl, rfl, rfl, rfl, ?_, ?_⟩
      · refine ⟨"✅ **TU PEDIDO ",
          " HA SIDO CONFIRMADO**\n\n" ++ "📦 " ++ p.resumen_items ++ "\n\n" ++
            "Tu pedido ha sido confirmado y está en espera de preparación.\n" ++
            "Te notificaremos cuando esté listo.", ?_⟩
        rw [show "✅ **TU PEDIDO #" = "✅ **TU PEDIDO " ++ "#" from rfl]
        simp only [String.append_assoc]
      · refine ⟨"✅ **TU PEDIDO #" ++ toString p.id ++ " HA SIDO CONFIRMADO**\n\n" ++ "📦 ",
          "\n\n" ++ "Tu pedido ha sido confirmado y está en espera de preparación.\n" ++
            "Te notificaremos cuando esté listo.", ?_⟩
        simp only [String.append_assoc]
    | en_preparacion =>
      refine ⟨_, rfl, rfl, rfl, rfl, ?_, ?_⟩
      · refine ⟨"🔄 **TU PEDIDO ",
          " ESTÁ EN PREPARACIÓN**\n\n" ++ "📦 " ++ p.resumen_items ++ "\n\n" ++
            "Estamos preparando tu pedido.\n" ++
            "Te avisaremos cuando esté listo para recoger.", ?_⟩
        rw [show "🔄 **TU PEDIDO #" = "🔄 **TU PEDIDO " ++ "#" from rfl]
        simp only [String.append_assoc]
      · refine ⟨"🔄 **TU PEDIDO #" ++ toString p.id ++ " ESTÁ EN PREPARACIÓN**\n\n" ++ "📦 ",
          "\n\n" ++ "Estamos preparando tu pedido.\n" ++
            "Te avisaremos cuando esté listo para recoger.", ?_⟩
        simp only [String.append_assoc]
    | listo_para_recoger =>
      refine ⟨_, rfl, rfl, rfl, rfl, ?_, ?_⟩
      · refine ⟨"✅ **¡TU PEDIDO ",
          " ESTÁ LISTO!**\n\n" ++ "📦 " ++ p.resumen_items ++ "\n\n" ++
            "Tu pedido está listo para recoger.\n" ++ "¡Te esperamos!", ?_⟩
        rw [show "✅ **¡TU PEDIDO #" = "✅ **¡TU PEDIDO " ++ "#" from rfl]
        simp only [String.append_assoc]
      · refine ⟨"✅ **¡TU PEDIDO #" ++ toString p.id ++ " ESTÁ LISTO!**\n\n" ++ "📦 ",
          "\n\n" ++ "Tu pedido está listo para recoger.\n" ++ "¡Te esperamos!", ?_⟩
        simp only [String.append_assoc]
    | completado =>
      refine ⟨_, rfl, rfl, rfl, rfl, ?_, ?_⟩
      · refine ⟨"🎉 **¡GRACIAS POR TU PEDIDO ",
          "!**\n\n" ++ "📦 " ++ p.resumen_items ++ "\n\n" ++
            "Tu pedido ha sido completado.\n" ++ "¡Esperamos verte pronto!", ?_⟩
        rw [show "🎉 **¡GRACIAS POR TU PEDIDO #" = "🎉 **¡GRACIAS POR TU PEDIDO " ++ "#"
          from rfl]
        simp only [String.append_assoc]
      · refine ⟨"🎉 **¡GRACIAS POR TU PEDIDO #" ++ toString p.id ++ "!**\n\n" ++ "📦 ",
          "\n\n" ++ "Tu pedido ha sido completado.\n" ++ "¡Esperamos verte pronto!", ?_⟩
        simp only [String.append_assoc]
    | cancelado =>
      refine ⟨_, rfl, rfl, rfl, rfl, ?_, ?_⟩
      · refine ⟨"❌ **TU PEDIDO ",
          " HA SIDO CANCELADO**\n\n" ++ "📦 " ++ p.resumen_items ++ "\n\n" ++
            "Tu pedido ha sido cancelado.\n" ++
            "Si tienes alguna pregunta, contáctanos.", ?_⟩
        rw [show "❌ **TU PEDIDO #" = "❌ **TU PEDIDO " ++ "#" from rfl]
        simp only [String.append_assoc]
      · refine ⟨"❌ **TU PEDIDO #" ++ toString p.id ++ " HA SIDO CANCELADO**\n\n" ++ "📦 ",
          "\n\n" ++ "Tu pedido ha sido cancelado.\n" ++
            "Si tienes alguna pregunta, contáctanos.", ?_⟩
        simp only [String.append_assoc]
  · refine ⟨_, rfl, "✅ **",
      "**\n\n" ++ "📦 " ++ p.resumen_items ++ "\n\n" ++
        "Tu pedido ha sido confirmado y está en espera de preparación.\n" ++
        "Te notificaremos cuando esté listo.", ?_⟩
    rw [show "✅ **TU PEDIDO #" = "✅ **" ++ "TU PEDIDO #" from rfl,
      show " HA SIDO CONFIRMADO**\n\n" = " HA SIDO CONFIRMADO" ++ "**\n\n" from rfl]
    simp only [String.append_assoc]

/-- C4 witness: for `pedidoEj` (id 1, summary "2 pizzas") the
`pendiente_confirmacion` case yields no intent and the `completado` case
yields an intent whose message contains `#1` and the item summary. -/
theorem C4_build_notification_witness :
    notificar_cambio_estado pedidoEj .pendiente_confirmacion = none ∧
    (∃ d, notificar_cambio_estado pedidoEj .completado = some d ∧
      containsStr d.mensaje ("#" ++ toString pedidoEj.id) ∧
      containsStr d.mensaje pedidoEj.resumen_items) := by
  obtain ⟨h0, h5, -⟩ := C4_build_notification pedidoEj
  obtain ⟨d, hd, -, -, -, hid, hres⟩ := h5 .completado (by decide)
  exact ⟨h0, d, hd, hid, hres⟩

/-- C5 counterexample: a delivery attempt that fails with an exception other
than a `TelegramError` (the `except Exception` branch) returns a non-fatal
failure but commits nothing: no `NotificacionEnviada` row with
`exitoso = false` is persisted, contradicting "on any delivery error it
persists a NotificationRecord with success=false". -/
theorem C5_counterexample :
    enviar_notificacion dbEj 7 "mensaje" .cambio_estado (some 1) 4
      [.unexpectedError "boom"] = some ([], false, []) ∧
    dbEj.notificaciones = [] := ⟨rfl, rfl⟩

/-- C5 amended: each call consumes exactly one send attempt from the channel
and never raises; on success it commits exactly one record with
`exitoso = true`; on a `TelegramError` it commits exactly one record with
`exitoso = false` carrying the error text and returns failure; on any other
unexpected exception it returns failure without persisting any record. -/
theorem C5_deliver_bookkeeping (db : DB) (tuid : Int) (mensaje : String)
    (tipo : TipoNotificacionEnum) (pid : Option Nat) (now : Nat)
    (outcome : SendResult) (rest : List SendResult) :
    ∃ commits b,
      enviar_notificacion db tuid mensaje tipo pid now (outcome :: rest) =
        some (commits, b, rest) ∧
      (outcome = .ok → b = true ∧
        commits = [{ db with notificaciones := db.notificaciones ++
          [{ pedido_id := pid, telegram_user_id := tuid, tipo_notificacion := tipo,
             mensaje := mensaje, exitoso := true, error := none, fecha_envio := now }] }]) ∧
      (∀ e, outcome = .telegramError e → b = false ∧
        commits = [{ db with notificaciones := db.notificaciones ++
          [{ pedido_id := pid, telegram_user_id := tuid, tipo_notificacion := tipo,
             mensaje := mensaje, exitoso := false, error := some e,
             fecha_envio := now }] }]) ∧
      (∀ e, outcome = .unexpectedError e → b = false ∧ commits = []) := by
  cases outcome with
  | ok =>
    refine ⟨_, _, rfl, fun _ => ⟨rfl, rfl⟩, ?_, ?_⟩ <;> · intro e h; simp at h
  | telegramError e0 =>
    refine ⟨_, _, rfl, ?_, ?_, ?_⟩
    · intro h; simp at h
    · intro e h
      injection h with he
      subst he
      exact ⟨rfl, rfl⟩
    · intro e h; simp at h
  | unexpectedError e0 =>
    refine ⟨_, _, rfl, ?_, ?_, ?_⟩
    · intro h; simp at h
    · intro e h; simp at h
    · intro e h
      injection h with he
      subst he
      exact ⟨rfl, rfl⟩

/-- C5 witness: a `TelegramError` delivery for `dbEj` consumes the one
outcome, returns failure, and commits a failure record. -/
theorem C5_deliver_bookkeeping_witness :
    ∃ commits, enviar_notificacion dbEj 7 "hola" TipoNotificacionEnum.recordatorio none 4
      [SendResult.telegramError "blocked"] = some (commits, false, []) := by
  obtain ⟨commits, b, h1, -, h3, -⟩ :=
    C5_deliver_bookkeeping dbEj 7 "hola" .recordatorio none 4 (.telegramError "blocked") []
  obtain ⟨hb, -⟩ := h3 "blocked" rfl
  exact ⟨commits, hb ▸ h1⟩

/-- Delivery bookkeeping only ever appends to the notifications table: every
state it commits keeps orders, history, logs and tokens untouched. -/
theorem enviar_notificacion_frame (db : DB) (tuid : Int) (mensaje : String)
    (tipo : TipoNotificacionEnum) (pid : Option Nat) (now : Nat)
    (outs rest : List SendResult) (commits : List DB) (b : Bool)
    (h : enviar_notificacion db tuid mensaje tipo pid now outs = some (commits, b, rest)) :
    ∀ dbc ∈ commits, dbc.pedidos = db.pedidos ∧ dbc.historial = db.historial ∧
      dbc.logs = db.logs ∧ dbc.refresh_tokens = db.refresh_tokens := by
  intro dbc hmem
  cases outs with
  | nil => exact absurd h (by simp [enviar_notificacion])
  | cons o rest0 =>
    cases o with
    | ok =>
      rw [enviar_notificacion] at h
      simp only [Option.some.injEq, Prod.mk.injEq] at h
      obtain ⟨hc, -, -⟩ := h
      rw [← hc] at hmem
      rw [List.mem_singleton.mp hmem]
      exact ⟨rfl, rfl, rfl, rfl⟩
    | telegramError e =>
      rw [enviar_notificacion] at h
      simp only [Option.some.injEq, Prod.mk.injEq] at h
      obtain ⟨hc, -, -⟩ := h
      rw [← hc] at hmem
      rw [List.mem_singleton.mp hmem]
      exact ⟨rfl, rfl, rfl, rfl⟩
    | unexpectedError e =>
      rw [enviar_notificacion] at h
      simp only [Option.some.injEq, Prod.mk.injEq] at h
      obtain ⟨hc, -, -⟩ := h
      rw [← hc] at hmem
      cases hmem

/-- C6: once a transition has committed state `db1`, the notification step —
whatever the delivery outcome, including failures — commits only states in
which the orders table (states and timestamps) and the history table are
exactly those of `db1`: a delivery failure never rolls back the
transition. -/
theorem C6_notify_failure_frame (db : DB) (pid : Nat) (s : String) (notas : Option String)
    (actor : String) (now now2 : Nat) (db1 : DB) (p1 : Pedido) (ns : EstadoPedidoEnum)
    (outs rest : List SendResult) (commits : List DB) (b : Bool)
    (_htr : cambiar_estado_pedido db pid s notas actor now = ([db1], .ok p1))
    (hnotif : enviar_notificacion_cambio_estado db1 p1 ns now2 outs =
      some (commits, b, rest)) :
    ∀ dbc ∈ commits, dbc.pedidos = db1.pedidos ∧ dbc.historial = db1.historial := by
  intro dbc hmem
  rw [enviar_notificacion_cambio_estado] at hnotif
  cases hd : notificar_cambio_estado p1 ns with
  | none =>
    rw [hd] at hnotif
    simp only [Option.some.injEq, Prod.mk.injEq] at hnotif
    obtain ⟨hc, -, -⟩ := hnotif
    rw [← hc] at hmem
    cases hmem
  | some d =>
    rw [hd] at hnotif
    obtain ⟨h1, h2, -, -⟩ :=
      enviar_notificacion_frame db1 d.telegram_user_id d.mensaje d.tipo_notificacion
        (some d.pedido_id) now2 outs rest commits b hnotif dbc hmem
    exact ⟨h1, h2⟩

/-- C6 witness: after the concrete transition of order 1 to `confirmado`, a
failed (`TelegramError`) delivery commits only `dbConfNotif`, whose orders
and history are exactly those of the transition's committed state. -/
theorem C6_notify_failure_frame_witness :
    dbConfNotif.pedidos = dbConf.pedidos ∧ dbConfNotif.historial = dbConf.historial :=
  C6_notify_failure_frame dbEj 1 "confirmado" none "ana@mail.com" 3 4 dbConf pedidoConf
    .confirmado [.telegramError "blocked"] [] [dbConfNotif] false rfl rfl dbConfNotif
    (List.mem_singleton.mpr rfl)

/-- Revoking a token leaves no active row carrying that token value, provided
token values are unique (the `token` column is `unique=True`). -/
theorem revokeTokenFirst_no_active (l : List RefreshToken) (t : String)
    (hnodup : l.Pairwise (fun a b => a.token ≠ b.token)) :
    (revokeTokenFirst l t).find? (fun rt => rt.token == t && !rt.is_revoked) = none := by
  induction l with
  | nil => rfl
  | cons a l ih =>
    rw [List.pairwise_cons] at hnodup
    obtain ⟨ha, hl⟩ := hnodup
    rw [revokeTokenFirst]
    by_cases hat : a.token = t
    · rw [if_pos hat, List.find?_cons]
      have hhead : (({ a with is_revoked := true } : RefreshToken).token == t &&
          !({ a with is_revoked := true } : RefreshToken).is_revoked) = false := by
        simp
      rw [hhead]
      apply List.find?_eq_none.mpr
      intro x hx
      have hxt : x.token ≠ t := fun hxeq => ha x hx (hat.trans hxeq.symm)
      simp [hxt]
    · rw [if_neg hat, List.find?_cons]
      have hhead : (a.token == t && !a.is_revoked) = false := by simp [hat]
      rw [hhead]
      exact ih hl

/-- C7 counterexample: rotation is two separately committed transactions.
Starting from one valid token, the refresh call commits first
`dbTokRevocado` — where the user has zero valid refresh tokens — and only
then `dbTokRotado`; the revoke-old and create-new steps are not one atomic
unit of work, contradicting "either both succeed or neither does, so the
user is never left with zero valid refresh tokens by a partial rotation". -/
theorem C7_counterexample :
    refresh_access_token dbTok "tokold" "toknew" 10 =
      ([dbTokRevocado, dbTokRotado], .ok "toknew") ∧
    countValid dbTok 1 10 = 1 ∧
    countValid dbTokRevocado 1 10 = 0 ∧
    countValid dbTokRotado 1 10 = 1 :=
  ⟨rfl, by decide, by decide, by decide⟩

/-- C7 amended: a successful refresh with rotation commits two states in
order: first the revocation of the presented token, then the creation of
exactly one new active token for the user.  In the final state the old token
is unusable — `verify_refresh_token` rejects it and a subsequent refresh
with it fails with `Unauthorized` — but the two steps are separate
transactions, and in the intermediate committed state the old token is
already revoked while the new one does not yet exist. -/
theorem C7_refresh_rotation (db : DB) (old newTok : String) (now : Nat) (u : AuthUser)
    (hver : verify_refresh_token db old now = some u)
    (hact : u.is_active = true)
    (hnodup : db.refresh_tokens.Pairwise (fun a b => a.token ≠ b.token))
    (hne : newTok ≠ old) :
    ∃ db1 db2,
      refresh_access_token db old newTok now = ([db1, db2], .ok newTok) ∧
      db1.refresh_tokens = revokeTokenFirst db.refresh_tokens old ∧
      db2 = { db1 with refresh_tokens := db1.refresh_tokens ++
        [nuevoRefreshToken u.id newTok now] } ∧
      (∀ now2, verify_refresh_token db1 old now2 = none) ∧
      (∀ now2, verify_refresh_token db2 old now2 = none) ∧
      (∀ tok2 now2, refresh_access_token db2 old tok2 now2 =
        ([], .error .unauthorized)) := by
  have hfind0 : ∃ rt0, db.refresh_tokens.find?
      (fun rt => rt.token == old && !rt.is_revoked) = some rt0 := by
    rw [verify_refresh_token] at hver
    cases hf : db.refresh_tokens.find? (fun rt => rt.token == old && !rt.is_revoked) with
    | none => rw [hf] at hver; cases hver
    | some rt0 => exact ⟨rt0, rfl⟩
  obtain ⟨rt0, hfind0⟩ := hfind0
  have hmem0 : rt0 ∈ db.refresh_tokens := List.mem_of_find?_eq_some hfind0
  have hp0 := List.find?_some hfind0
  have htok0 : (rt0.token == old) = true := by
    rcases Bool.and_eq_true_iff.mp hp0 with ⟨h1, -⟩
    exact h1
  have hfind1 : (db.refresh_tokens.find? (fun rt => rt.token == old)).isSome :=
    List.find?_isSome.mpr ⟨rt0, hmem0, htok0⟩
  obtain ⟨rt1, hfind1⟩ := Option.isSome_iff_exists.mp hfind1
  have hnoact : ∀ now2, verify_refresh_token
      { db with refresh_tokens := revokeTokenFirst db.refresh_tokens old } old now2 =
      none := by
    intro now2
    rw [verify_refresh_token]
    rw [show ({ db with refresh_tokens := revokeTokenFirst db.refresh_tokens old } :
        DB).refresh_tokens = revokeTokenFirst db.refresh_tokens old from rfl]
    rw [revokeTokenFirst_no_active db.refresh_tokens old hnodup]
  have hnoact2 : ∀ now2, verify_refresh_token
      { db with refresh_tokens := revokeTokenFirst db.refresh_tokens old ++
        [nuevoRefreshToken u.id newTok now] } old now2 = none := by
    intro now2
    rw [verify_refresh_token]
    have happ : (revokeTokenFirst db.refresh_tokens old ++
        [nuevoRefreshToken u.id newTok now]).find?
        (fun rt => rt.token == old && !rt.is_revoked) = none := by
      rw [find?_append_of_none _ _ _
        (revokeTokenFirst_no_active db.refresh_tokens old hnodup)]
      rw [List.find?_cons]
      have hhead : ((nuevoRefreshToken u.id newTok now).token == old &&
          !(nuevoRefreshToken u.id newTok now).is_revoked) = false := by
        simp [nuevoRefreshToken, hne]
      rw [hhead]
      rfl
    rw [happ]
  refine ⟨{ db with refresh_tokens := revokeTokenFirst db.refresh_tokens old },
    { db with refresh_tokens := revokeTokenFirst db.refresh_tokens old ++
      [nuevoRefreshToken u.id newTok now] }, ?_, rfl, rfl, hnoact, hnoact2, ?_⟩
  · simp only [refresh_access_token, hver, hact, Bool.not_true, Bool.false_eq_true,
      if_false, revoke_refresh_token, hfind1, create_refresh_token, List.getLastD]
    rfl
  · intro tok2 now2
    rw [refresh_access_token, hnoact2 now2]

/-- C7 witness: for the concrete one-token database, the refresh call
succeeds and afterwards the old token is rejected and a refresh with it
fails with `Unauthorized`. -/
theorem C7_refresh_rotation_witness :
    verify_refresh_token dbTokRotado "tokold" 10 = none ∧
    refresh_access_token dbTokRotado "tokold" "tok3" 11 = ([], .error .unauthorized) := by
  obtain ⟨db1, db2, h1, -, -, -, h5, h6⟩ :=
    C7_refresh_rotation dbTok "tokold" "toknew" 10 userEj rfl rfl (by simp [dbTok])
      (by decide)
  have hr : refresh_access_token dbTok "tokold" "toknew" 10 =
      ([dbTokRevocado, dbTokRotado], .ok "toknew") := rfl
  rw [hr] at h1
  simp only [List.cons.injEq, Prod.mk.injEq, List.nil_eq] at h1
  obtain ⟨⟨-, hdb2, -⟩, -⟩ := h1
  rw [hdb2]
  exact ⟨h5 10, h6 "tok3" 11⟩

/-- The insertion loop creates one row per proposed order. -/
theorem buildPedidos_length (ds : List PedidoData) (startId : Nat) (uid : Int)
    (uname : Option String) (mid : Int) (now : Nat) :
    (buildPedidos startId uid uname mid now ds).length = ds.length := by
  induction ds generalizing startId with
  | nil => rfl
  | cons d ds ih => simp [buildPedidos, ih]

/-- Every row the insertion loop creates carries the originating message id
and starts in the initial state. -/
theorem buildPedidos_mem (ds : List PedidoData) (startId : Nat) (uid : Int)
    (uname : Option String) (mid : Int) (now : Nat) :
    ∀ q ∈ buildPedidos startId uid uname mid now ds,
      q.mensaje_id = mid ∧ q.estado = .pendiente_confirmacion := by
  induction ds generalizing startId with
  | nil => intro q hq; cases hq
  | cons d ds ih =>
    intro q hq
    rcases List.mem_cons.mp hq with rfl | hq'
    · exact ⟨rfl, rfl⟩
    · exact ih (startId + 1) q hq'

/-- A transition request to `confirmado` succeeds on any order id present in
the database. -/
theorem confirmTransitionSucceeds (db : DB) (pid : Nat) (p0 : Pedido)
    (notas : Option String) (actor : String) (now : Nat)
    (hfind : db.pedidos.find? (fun q => q.id == pid) = some p0) :
    ∃ db1 p1, cambiar_estado_pedido db pid "confirmado" notas actor now =
      ([db1], .ok p1) ∧ p1.estado = .confirmado := by
  refine ⟨{ db with
      pedidos := replacePedidoFirst db.pedidos pid
        { p0 with estado := .confirmado, fecha_confirmacion := some now },
      historial := db.historial ++
        [{ pedido_id := pid, estado_anterior := some p0.estado,
           estado_nuevo := .confirmado, modificado_por := some actor,
           notas := notas, fecha_cambio := now }] },
    { p0 with estado := .confirmado, fecha_confirmacion := some now }, ?_, rfl⟩
  simp only [cambiar_estado_pedido, hfind]
  rfl

/-- C8: one classification result proposing `N` orders makes the handler
persist exactly `N` new `Pedido` rows, appended to the orders table, each
carrying the originating message id and the initial state, and each
independently transitionable afterwards (a `confirmado` transition on its id
succeeds on the resulting database). -/
theorem C8_multi_order_persistence (db : DB) (uid : Int) (uname : Option String)
    (mid : Int) (texto : String) (a : Analisis) (now : Nat) :
    ∃ nuevos,
      (procesar_mensaje db uid uname mid texto (some a) now).pedidos =
        db.pedidos ++ nuevos ∧
      nuevos.length = (if a.es_pedido then a.pedidos.length else 0) ∧
      (∀ q ∈ nuevos, q.mensaje_id = mid ∧ q.estado = .pendiente_confirmacion) ∧
      (∀ q ∈ nuevos, ∀ notas actor now2,
        ∃ db1 p1,
          cambiar_estado_pedido (procesar_mensaje db uid uname mid texto (some a) now)
            q.id "confirmado" notas actor now2 = ([db1], .ok p1) ∧
          p1.estado = .confirmado) := by
  by_cases hes : a.es_pedido = true
  · by_cases hnil : a.pedidos = []
    · refine ⟨[], ?_, ?_, ?_, ?_⟩
      · simp [procesar_mensaje, hes, hnil]
      · simp [hes, hnil]
      · intro q hq; cases hq
      · intro q hq; cases hq
    · have hped : (procesar_mensaje db uid uname mid texto (some a) now).pedidos =
          db.pedidos ++ buildPedidos db.next_pedido_id uid uname mid now a.pedidos := by
        simp [procesar_mensaje, hes, hnil]
      refine ⟨buildPedidos db.next_pedido_id uid uname mid now a.pedidos, hped, ?_, ?_, ?_⟩
      · simp [hes, buildPedidos_length]
      · exact buildPedidos_mem a.pedidos db.next_pedido_id uid uname mid now
      · intro q hq notas actor now2
        have hmem : q ∈ (procesar_mensaje db uid uname mid texto (some a) now).pedidos := by
          rw [hped]
          exact List.mem_append.mpr (Or.inr hq)
        have hsome : (((procesar_mensaje db uid uname mid texto (some a) now).pedidos).find?
            (fun r => r.id == q.id)).isSome :=
          List.find?_isSome.mpr ⟨q, hmem, by simp⟩
        obtain ⟨p0, hp0⟩ := Option.isSome_iff_exists.mp hsome
        exact confirmTransitionSucceeds _ q.id p0 notas actor now2 hp0
  · refine ⟨[], ?_, ?_, ?_, ?_⟩
    · simp [procesar_mensaje, hes]
    · simp [hes]
    · intro q hq; cases hq
    · intro q hq; cases hq

/-- C8 witness: the concrete two-order classification result turns the
one-order database into a three-order database. -/
theorem C8_multi_order_persistence_witness :
    (procesar_mensaje dbEj 7 (some "ana") 11 "dos pedidos" (some analisisDoble) 2).pedidos.length = 3 := by
  obtain ⟨nuevos, h1, h2, -, -⟩ :=
    C8_multi_order_persistence dbEj 7 (some "ana") 11 "dos pedidos" analisisDoble 2
  rw [h1, List.length_append, h2]
  decide

/-- C9 counterexample: the CSV export has only 15 columns and its rows are
identical for two orders that differ exactly in `fecha_cancelado`: the
cancelled timestamp has no column, contradicting "one column for each of the
order's lifecycle timestamp fields, including ... cancelled". -/
theorem C9_counterexample :
    csvHeader.length = 15 ∧
    pedidoCsvA.fecha_cancelado ≠ pedidoCsvB.fecha_cancelado ∧
    csvRow pedidoCsvA = csvRow pedidoCsvB := ⟨rfl, by decide, rfl⟩

/-- C9 amended: the CSV export emits the fixed column order id, Telegram
user id, username, priority, state, requested date, requested time, item
summary, notes, assignee, followed by the creation, confirmation,
preparation, ready and completed timestamps; the cancelled timestamp is not
exported (rows are invariant under `fecha_cancelado`). -/
theorem C9_csv_columns :
    csvHeader.length = 15 ∧
    "Fecha Completado" ∈ csvHeader ∧
    "Fecha Cancelado" ∉ csvHeader ∧
    (∀ p, (csvRow p).length = csvHeader.length) ∧
    (∀ p t, csvRow { p with fecha_cancelado := t } = csvRow p) ∧
    (∀ p, (csvRow p).take 10 =
      [toString p.id, toString p.telegram_user_id, celdaOptStr p.telegram_username,
       p.prioridad.valor, p.estado.valor, celdaOptNat p.fecha_solicitada,
       celdaOptStr p.hora_solicitada, p.resumen_items, celdaOptStr p.notas_adicionales,
       celdaOptStr p.asignado_a] ∧
      (csvRow p).drop 10 =
      [toString p.fecha_creacion, celdaOptNat p.fecha_confirmacion,
       celdaOptNat p.fecha_preparacion, celdaOptNat p.fecha_listo,
       celdaOptNat p.fecha_completado]) :=
  ⟨rfl, by decide, by decide, fun _ => rfl, fun _ _ => rfl, fun _ => ⟨rfl, rfl⟩⟩

end Backend
